import Mathlib

/-!
Verification of the Finance-health-check frontend session/route-guard core.

The definitions below are a shallow embedding of the session lifecycle and
route-guard logic of `src/frontend/src/App.tsx`, and of the submit / data-load
handlers of `src/frontend/src/pages/Login.tsx`, `Register.tsx`, `Dashboard.tsx`,
`RiskAssessment.tsx` and `Reports.tsx`.  Persisted browser storage is modelled
as the two named entries the app uses (`access_token`, `refresh_token`), each an
`Option String` (`none` = key absent, as `localStorage.getItem` returns `null`).
-/

/-- JavaScript truthiness of a nullable string, as used by `!!token` in
App.tsx line 18: `null`/absent and the empty string are falsy, every other
string is truthy. -/
def jsTruthy : Option String → Bool
  | none => false
  | some s => s != ""

/-- The persisted client-local storage slice the app reads and writes:
entries `access_token` and `refresh_token` (App.tsx lines 17, 22-23, 28-29). -/
structure Storage where
  access_token : Option String
  refresh_token : Option String
deriving DecidableEq, Repr

/-- The session state owned by the root `App` component: the persisted storage
plus the `isAuthenticated` React state (App.tsx line 13). -/
structure AppState where
  storage : Storage
  isAuthenticated : Bool
deriving DecidableEq, Repr

/-- The state at component mount with empty persisted storage:
`useState(false)` (App.tsx line 13). -/
def initState : AppState := ⟨⟨none, none⟩, false⟩

/-- The `initialize()` step of the Session Store: the body of the
`useEffect` in App.tsx lines 15-19, which reads the persisted `access_token`
and sets `isAuthenticated` to its truthiness.  Storage is not modified. -/
def initializeApp (s : AppState) : AppState :=
  { s with isAuthenticated := jsTruthy s.storage.access_token }

/-- `handleLogin` (App.tsx lines 21-25): persists both tokens and sets
`isAuthenticated := true`. -/
def handleLogin (token refreshToken : String) (s : AppState) : AppState :=
  { storage := ⟨some token, some refreshToken⟩, isAuthenticated := true }

/-- `handleLogout` (App.tsx lines 27-31): removes both persisted tokens and
sets `isAuthenticated := false`. -/
def handleLogout (s : AppState) : AppState :=
  { storage := ⟨none, none⟩, isAuthenticated := false }

/-- States reachable from `initState` by any sequence of `initializeApp`,
`handleLogin` with non-empty string arguments, and `handleLogout`. -/
inductive Reachable : AppState → Prop where
  | start : Reachable initState
  | doInit {s : AppState} : Reachable s → Reachable (initializeApp s)
  | doLogin {s : AppState} (a r : String) :
      Reachable s → a ≠ "" → r ≠ "" → Reachable (handleLogin a r s)
  | doLogout {s : AppState} : Reachable s → Reachable (handleLogout s)

/-- Strengthened invariant for the induction: a reachable state is either
fully logged out, or holds a non-empty access token together with a refresh
token and is authenticated. -/
def GoodState (s : AppState) : Prop :=
  (s.storage.access_token = none ∧ s.storage.refresh_token = none ∧
    s.isAuthenticated = false) ∨
  (∃ a r, a ≠ "" ∧ s.storage.access_token = some a ∧
    s.storage.refresh_token = some r ∧ s.isAuthenticated = true)

theorem reachable_good {s : AppState} (h : Reachable s) : GoodState s := by
  induction h with
  | start => exact Or.inl ⟨rfl, rfl, rfl⟩
  | doInit _ ih =>
    rcases ih with ⟨h1, h2, h3⟩ | ⟨a, r, ha, h1, h2, h3⟩
    · exact Or.inl ⟨h1, h2, by simp [initializeApp, jsTruthy, h1]⟩
    · exact Or.inr ⟨a, r, ha, h1, h2, by simp [initializeApp, jsTruthy, h1, ha]⟩
  | doLogin a r _ ha hr ih => exact Or.inr ⟨a, r, ha, rfl, rfl, rfl⟩
  | doLogout _ ih => exact Or.inl ⟨rfl, rfl, rfl⟩

/-- C1: in every state reachable from the initial state (empty persisted
storage) by `initializeApp`, `handleLogin` with non-empty arguments, and
`handleLogout`, `isAuthenticated` holds iff the persisted access token is
non-null, and the access and refresh tokens are both present or both absent. -/
theorem session_state_invariant (s : AppState) (h : Reachable s) :
    (s.isAuthenticated = true ↔ s.storage.access_token ≠ none) ∧
    s.storage.access_token.isSome = s.storage.refresh_token.isSome := by
  rcases reachable_good h with ⟨h1, h2, h3⟩ | ⟨a, r, _, h1, h2, h3⟩ <;>
    rw [h1, h2, h3] <;> exact ⟨by simp, rfl⟩

/-- Witness for C1 at a concrete reachable state: after logging in from the
initial state, the invariant holds. -/
theorem session_state_invariant_witness :
    ((handleLogin "tok123" "ref456" initState).isAuthenticated = true ↔
      (handleLogin "tok123" "ref456" initState).storage.access_token ≠ none) ∧
    (handleLogin "tok123" "ref456" initState).storage.access_token.isSome =
      (handleLogin "tok123" "ref456" initState).storage.refresh_token.isSome :=
  session_state_invariant (handleLogin "tok123" "ref456" initState)
    (Reachable.doLogin "tok123" "ref456" Reachable.start (by decide) (by decide))

/-- C4: round-trip — after `handleLogin a r` with non-empty `a, r`, re-running
`initializeApp` against the same persisted storage (a simulated reload) yields
`isAuthenticated = true` and the same persisted token values. -/
theorem login_then_initialize_roundtrip (a r : String) (s : AppState)
    (ha : a ≠ "") (hr : r ≠ "") :
    (initializeApp (handleLogin a r s)).isAuthenticated = true ∧
    (initializeApp (handleLogin a r s)).storage.access_token = some a ∧
    (initializeApp (handleLogin a r s)).storage.refresh_token = some r := by
  refine ⟨?_, rfl, rfl⟩
  simp [initializeApp, handleLogin, jsTruthy, ha]

/-- Witness for C4 at the concrete token pair of the spec scenario. -/
theorem login_then_initialize_roundtrip_witness :
    (initializeApp (handleLogin "tok123" "ref456" initState)).isAuthenticated = true ∧
    (initializeApp (handleLogin "tok123" "ref456" initState)).storage.access_token = some "tok123" ∧
    (initializeApp (handleLogin "tok123" "ref456" initState)).storage.refresh_token = some "ref456" :=
  login_then_initialize_roundtrip "tok123" "ref456" initState (by decide) (by decide)

/-- C8: `handleLogout` is idempotent — applying it twice equals applying it
once on every state, and applying it to the logged-out state
`{false, null, null}` is a no-op. -/
theorem handleLogout_idempotent (s : AppState) :
    handleLogout (handleLogout s) = handleLogout s ∧
    handleLogout ⟨⟨none, none⟩, false⟩ = ⟨⟨none, none⟩, false⟩ :=
  ⟨rfl, rfl⟩

/-- C9: if storage holds an `access_token` entry whose value is the empty
string, `initializeApp` leaves the session unauthenticated, treating the
empty-string token exactly like an absent token even though the stored value
is non-null. -/
theorem empty_string_token_not_authenticated (r : Option String) (b : Bool) :
    (⟨⟨some "", r⟩, b⟩ : AppState).storage.access_token ≠ none ∧
    (initializeApp ⟨⟨some "", r⟩, b⟩).isAuthenticated = false ∧
    (initializeApp ⟨⟨some "", r⟩, b⟩).isAuthenticated =
      (initializeApp ⟨⟨none, r⟩, b⟩).isAuthenticated :=
  ⟨by simp, rfl, rfl⟩

/-- The pages the router can render (App.tsx lines 36-37, 46-50). -/
inductive Page where
  | loginPage
  | registerPage
  | dashboard
  | uploadPage
  | riskPage
  | reportsPage
  | settingsPage
deriving DecidableEq, Repr

/-- Outcome of a route decision: render a page (inside the authenticated
`Layout` shell or not), or redirect (`Navigate ... replace`) to a path. -/
inductive RouteResult where
  | render (p : Page) (inShell : Bool)
  | redirect (dest : String)
deriving DecidableEq, Repr

/-- The unauthenticated route tree (App.tsx lines 33-41): `/login` and
`/register` render bare pages; every other path redirects to `/login`. -/
def publicRoutes (path : String) : RouteResult :=
  if path = "/login" then .render .loginPage false
  else if path = "/register" then .render .registerPage false
  else .redirect "/login"

/-- The authenticated route tree (App.tsx lines 43-53): the five protected
paths render inside the `Layout` shell; every other path redirects to `/`. -/
def protectedRoutes (path : String) : RouteResult :=
  if path = "/" then .render .dashboard true
  else if path = "/upload" then .render .uploadPage true
  else if path = "/risk" then .render .riskPage true
  else if path = "/reports" then .render .reportsPage true
  else if path = "/settings" then .render .settingsPage true
  else .redirect "/"

/-- The route guard of `App` (App.tsx lines 33-54): selects the route tree
solely from `isAuthenticated`. -/
def route (isAuthenticated : Bool) (path : String) : RouteResult :=
  if isAuthenticated then protectedRoutes path else publicRoutes path

/-- C2: while unauthenticated, exactly `/login` and `/register` render (bare)
and every other path redirects to `/login`; while authenticated, exactly the
five protected paths render inside the shell and every other path, `/login`
included, redirects to `/`. -/
theorem route_guard_policy (p : String) :
    ((∃ pg, route false p = RouteResult.render pg false) ↔
      p = "/login" ∨ p = "/register") ∧
    (p ≠ "/login" → p ≠ "/register" → route false p = RouteResult.redirect "/login") ∧
    ((∃ pg, route true p = RouteResult.render pg true) ↔
      p = "/" ∨ p = "/upload" ∨ p = "/risk" ∨ p = "/reports" ∨ p = "/settings") ∧
    (p ≠ "/" → p ≠ "/upload" → p ≠ "/risk" → p ≠ "/reports" → p ≠ "/settings" →
      route true p = RouteResult.redirect "/") ∧
    route true "/login" = RouteResult.redirect "/" := by
  have hfalse : route false p = publicRoutes p := rfl
  have htrue : route true p = protectedRoutes p := rfl
  refine ⟨⟨?_, ?_⟩, ?_, ⟨?_, ?_⟩, ?_, by decide⟩
  · rintro ⟨pg, hpg⟩
    rw [hfalse] at hpg
    unfold publicRoutes at hpg
    by_cases h1 : p = "/login"
    · exact Or.inl h1
    by_cases h2 : p = "/register"
    · exact Or.inr h2
    rw [if_neg h1, if_neg h2] at hpg
    exact RouteResult.noConfusion hpg
  · rintro (h | h) <;> subst h
    · exact ⟨Page.loginPage, by decide⟩
    · exact ⟨Page.registerPage, by decide⟩
  · intro h1 h2
    rw [hfalse]
    unfold publicRoutes
    rw [if_neg h1, if_neg h2]
  · rintro ⟨pg, hpg⟩
    rw [htrue] at hpg
    unfold protectedRoutes at hpg
    by_cases h1 : p = "/"
    · exact Or.inl h1
    by_cases h2 : p = "/upload"
    · exact Or.inr (Or.inl h2)
    by_cases h3 : p = "/risk"
    · exact Or.inr (Or.inr (Or.inl h3))
    by_cases h4 : p = "/reports"
    · exact Or.inr (Or.inr (Or.inr (Or.inl h4)))
    by_cases h5 : p = "/settings"
    · exact Or.inr (Or.inr (Or.inr (Or.inr h5)))
    rw [if_neg h1, if_neg h2, if_neg h3, if_neg h4, if_neg h5] at hpg
    exact RouteResult.noConfusion hpg
  · rintro (h | h | h | h | h) <;> subst h
    · exact ⟨Page.dashboard, by decide⟩
    · exact ⟨Page.uploadPage, by decide⟩
    · exact ⟨Page.riskPage, by decide⟩
    · exact ⟨Page.reportsPage, by decide⟩
    · exact ⟨Page.settingsPage, by decide⟩
  · intro h1 h2 h3 h4 h5
    rw [htrue]
    unfold protectedRoutes
    rw [if_neg h1, if_neg h2, if_neg h3, if_neg h4, if_neg h5]

/-- Witness for C2: concrete redirects on both sides of the guard. -/
theorem route_guard_policy_witness :
    route false "/upload" = RouteResult.redirect "/login" ∧
    route true "/nope" = RouteResult.redirect "/" :=
  ⟨(route_guard_policy "/upload").2.1 (by decide) (by decide),
   (route_guard_policy "/nope").2.2.2.1 (by decide) (by decide) (by decide)
     (by decide) (by decide)⟩

/-- The sequence of `isAuthenticated` values the route guard sees during a
mount of `App` with persisted storage `persisted`.  React semantics of
App.tsx lines 13-19: the first render uses the `useState(false)` initial
value; the `useEffect` with an empty dependency list runs once, after that
first render, executing `initializeApp`; a second render happens when the
resulting state differs.  Each list element is one route decision's input. -/
def mountAuthFrames (persisted : Storage) : List Bool :=
  let s0 : AppState := ⟨persisted, false⟩
  let s1 : AppState := initializeApp s0
  if s1.isAuthenticated == s0.isAuthenticated then [s0.isAuthenticated]
  else [s0.isAuthenticated, s1.isAuthenticated]

/-- Counterexample to C3: the claim that the `initialize()` read completes
before the first render — so that the first route decision already reflects
persisted credentials — is false: with a stored non-empty access token the
first frame still has `isAuthenticated = false` and shows the public tree. -/
theorem mount_before_first_render_counterexample :
    ¬ (∀ persisted : Storage, jsTruthy persisted.access_token = true →
        (mountAuthFrames persisted).head? = some true) := by
  intro hall
  have h := hall ⟨some "tok", some "ref"⟩ (by decide)
  exact absurd h (by decide)

/-- C3 amended: `initializeApp` runs exactly once per mount but after the
first render: the first route decision always uses `isAuthenticated = false`,
the mount produces at most two frames, and the last frame reflects the
truthiness of the persisted access token. -/
theorem mount_effect_after_first_render (persisted : Storage) :
    (mountAuthFrames persisted).head? = some false ∧
    (mountAuthFrames persisted).getLast? = some (jsTruthy persisted.access_token) ∧
    (mountAuthFrames persisted).length ≤ 2 := by
  cases h : jsTruthy persisted.access_token <;>
    simp [mountAuthFrames, initializeApp, h]

/-- The shape of a rejected axios request as the pages consume it:
`err.response?.data?.detail` and `err.message`, each possibly absent. -/
structure ApiError where
  detail : Option String
  message : Option String
deriving DecidableEq, Repr

/-- A successful `POST /auth/login` response body: the token pair. -/
structure TokenResponse where
  access_token : String
  refresh_token : String
deriving DecidableEq, Repr

/-- JavaScript `x || y` on a nullable string `x`: yields `y` when `x` is
absent or falsy (empty), else `x`. -/
def jsOrElse (x : Option String) (y : String) : String :=
  match x with
  | none => y
  | some s => if s = "" then y else s

/-- The error message the Login page shows on a rejected login
(Login.tsx line 43): `err.response?.data?.detail || 'Login failed. Please
try again.'`. -/
def loginErrorMessage (e : ApiError) : String :=
  jsOrElse e.detail "Login failed. Please try again."

/-- The error message the Register page shows on a rejected request
(Register.tsx line 306): `err.response?.data?.detail || err.message ||
'Registration failed. Please try again.'`.  The subsequent
`typeof errorMessage` check is the identity here, since `detail` is
modelled as a string when present. -/
def registerErrorMessage (e : ApiError) : String :=
  jsOrElse e.detail (jsOrElse e.message "Registration failed. Please try again.")

/-- Observable outcome of the Login page's `handleSubmit`
(Login.tsx lines 33-47). -/
structure LoginSubmitResult where
  session : AppState
  error : String
  navigatedTo : Option String
  loading : Bool
deriving DecidableEq, Repr

/-- The Login page's `handleSubmit` (Login.tsx lines 33-47), with the
`POST /auth/login` outcome supplied as an oracle: on success it invokes
`onLogin` (the session `handleLogin`) with the returned token pair and
navigates to `/`; on failure it only sets the inline error message. -/
def loginHandleSubmit (session : AppState)
    (resp : Except ApiError TokenResponse) : LoginSubmitResult :=
  match resp with
  | .ok t =>
    { session := handleLogin t.access_token t.refresh_token session,
      error := "", navigatedTo := some "/", loading := false }
  | .error e =>
    { session := session, error := loginErrorMessage e,
      navigatedTo := none, loading := false }

/-- The Register page's form state (Register.tsx lines 264-270). -/
structure RegisterForm where
  email : String
  password : String
  confirmPassword : String
  company_name : String
  industry_type : String
deriving DecidableEq, Repr

/-- The body posted to `POST /auth/register` (Register.tsx lines 290-295). -/
structure RegisterRequest where
  email : String
  password : String
  company_name : String
  industry_type : String
deriving DecidableEq, Repr

/-- Observable outcome of the Register page's `handleSubmit`, recording the
request bodies actually issued and the `onLogin` invocation, if any. -/
structure RegisterSubmitResult where
  session : AppState
  error : String
  navigatedTo : Option String
  registerRequestBody : Option RegisterRequest
  loginRequestBody : Option (String × String)
  onLoginArgs : Option (String × String)
deriving DecidableEq, Repr

/-- The Register page's `handleSubmit` (Register.tsx lines 278-311), with the
two network outcomes supplied as oracles.  A password/confirm mismatch
returns before any request; otherwise `POST /auth/register` is issued, on its
success `POST /auth/login` is issued with the same email and password, and
only on that login's success is `onLogin` invoked and `/` navigated to.
Either rejection sets the inline error and leaves the session untouched. -/
def registerHandleSubmit (form : RegisterForm) (session : AppState)
    (registerResp : Except ApiError Unit)
    (loginResp : Except ApiError TokenResponse) : RegisterSubmitResult :=
  if form.password != form.confirmPassword then
    { session := session, error := "Passwords do not match",
      navigatedTo := none, registerRequestBody := none,
      loginRequestBody := none, onLoginArgs := none }
  else
    match registerResp with
    | .error e =>
      { session := session, error := registerErrorMessage e,
        navigatedTo := none,
        registerRequestBody :=
          some ⟨form.email, form.password, form.company_name, form.industry_type⟩,
        loginRequestBody := none, onLoginArgs := none }
    | .ok _ =>
      match loginResp with
      | .error e =>
        { session := session, error := registerErrorMessage e,
          navigatedTo := none,
          registerRequestBody :=
            some ⟨form.email, form.password, form.company_name, form.industry_type⟩,
          loginRequestBody := some (form.email, form.password),
          onLoginArgs := none }
      | .ok t =>
        { session := handleLogin t.access_token t.refresh_token session,
          error := "", navigatedTo := some "/",
          registerRequestBody :=
            some ⟨form.email, form.password, form.company_name, form.industry_type⟩,
          loginRequestBody := some (form.email, form.password),
          onLoginArgs := some (t.access_token, t.refresh_token) }

/-- C5: if the credential exchange is rejected (`POST /auth/login` on the
Login page, or `POST /auth/register` on the Register page with matching
password fields), the page shows the response's error payload (or the
generic fallback baked into the message functions), the session is
unchanged — so no token is persisted and `isAuthenticated` keeps its value —
no navigation happens, and `onLogin` is never invoked. -/
theorem credential_exchange_failure_atomic (s : AppState) (e : ApiError)
    (form : RegisterForm) (lr : Except ApiError TokenResponse)
    (hm : form.password = form.confirmPassword) :
    (loginHandleSubmit s (Except.error e)).session = s ∧
    (loginHandleSubmit s (Except.error e)).error = loginErrorMessage e ∧
    (loginHandleSubmit s (Except.error e)).navigatedTo = none ∧
    (loginHandleSubmit s (Except.error e)).loading = false ∧
    (registerHandleSubmit form s (Except.error e) lr).session = s ∧
    (registerHandleSubmit form s (Except.error e) lr).error = registerErrorMessage e ∧
    (registerHandleSubmit form s (Except.error e) lr).navigatedTo = none ∧
    (registerHandleSubmit form s (Except.error e) lr).onLoginArgs = none := by
  refine ⟨rfl, rfl, rfl, rfl, ?_, ?_, ?_, ?_⟩ <;>
    simp [registerHandleSubmit, hm]

/-- Witness for C5 at a concrete rejection. -/
theorem credential_exchange_failure_atomic_witness :
    (loginHandleSubmit initState (Except.error ⟨some "Invalid credentials", none⟩)).session
      = initState ∧
    (registerHandleSubmit ⟨"a@b.c", "pw", "pw", "Acme", "services"⟩ initState
      (Except.error ⟨some "Invalid credentials", none⟩)
      (Except.error ⟨none, none⟩)).session = initState := by
  have h := credential_exchange_failure_atomic initState
    ⟨some "Invalid credentials", none⟩ ⟨"a@b.c", "pw", "pw", "Acme", "services"⟩
    (Except.error ⟨none, none⟩) rfl
  exact ⟨h.1, h.2.2.2.2.1⟩

/-- C6: a password/confirm mismatch on the Register page is caught before
any network call: the inline error is set, no request body is issued for
either endpoint, `onLogin` is not invoked, the session is unchanged and no
navigation happens.  (`handleSubmit` never writes the form state, so the
form is unchanged by construction.) -/
theorem password_mismatch_no_request (form : RegisterForm) (s : AppState)
    (rr : Except ApiError Unit) (lr : Except ApiError TokenResponse)
    (h : form.password ≠ form.confirmPassword) :
    registerHandleSubmit form s rr lr =
      { session := s, error := "Passwords do not match", navigatedTo := none,
        registerRequestBody := none, loginRequestBody := none,
        onLoginArgs := none } := by
  simp [registerHandleSubmit, h]

/-- Witness for C6 at concretely disagreeing password fields. -/
theorem password_mismatch_no_request_witness :
    registerHandleSubmit ⟨"a@b.c", "pw1", "pw2", "Acme", "services"⟩ initState
      (Except.ok ()) (Except.error ⟨none, none⟩) =
      { session := initState, error := "Passwords do not match",
        navigatedTo := none, registerRequestBody := none,
        loginRequestBody := none, onLoginArgs := none } :=
  password_mismatch_no_request ⟨"a@b.c", "pw1", "pw2", "Acme", "services"⟩
    initState (Except.ok ()) (Except.error ⟨none, none⟩) (by decide)

/-- C10: a successful `POST /auth/register` does not by itself authenticate:
the page then issues `POST /auth/login` with the same email and password;
only on that login's success is `onLogin` invoked with the returned token
pair and `/` navigated to, while a failed auto-login leaves the session
unchanged (still unauthenticated) even though the account was created. -/
theorem register_success_requires_auto_login (form : RegisterForm)
    (s : AppState) (e : ApiError) (t : TokenResponse)
    (hm : form.password = form.confirmPassword) :
    ((registerHandleSubmit form s (Except.ok ()) (Except.error e)).loginRequestBody
        = some (form.email, form.password) ∧
      (registerHandleSubmit form s (Except.ok ()) (Except.error e)).session = s ∧
      (registerHandleSubmit form s (Except.ok ()) (Except.error e)).onLoginArgs = none ∧
      (registerHandleSubmit form s (Except.ok ()) (Except.error e)).navigatedTo = none) ∧
    ((registerHandleSubmit form s (Except.ok ()) (Except.ok t)).loginRequestBody
        = some (form.email, form.password) ∧
      (registerHandleSubmit form s (Except.ok ()) (Except.ok t)).session
        = handleLogin t.access_token t.refresh_token s ∧
      (registerHandleSubmit form s (Except.ok ()) (Except.ok t)).onLoginArgs
        = some (t.access_token, t.refresh_token) ∧
      (registerHandleSubmit form s (Except.ok ()) (Except.ok t)).navigatedTo
        = some "/") := by
  refine ⟨⟨?_, ?_, ?_, ?_⟩, ⟨?_, ?_, ?_, ?_⟩⟩ <;>
    simp [registerHandleSubmit, hm]

/-- Witness for C10 at a concrete form and token pair. -/
theorem register_success_requires_auto_login_witness :
    (registerHandleSubmit ⟨"a@b.c", "pw", "pw", "Acme", "services"⟩ initState
      (Except.ok ()) (Except.error ⟨none, none⟩)).session = initState ∧
    (registerHandleSubmit ⟨"a@b.c", "pw", "pw", "Acme", "services"⟩ initState
      (Except.ok ()) (Except.ok ⟨"tokA", "refB"⟩)).onLoginArgs
      = some ("tokA", "refB") := by
  have h := register_success_requires_auto_login
    ⟨"a@b.c", "pw", "pw", "Acme", "services"⟩ initState ⟨none, none⟩
    ⟨"tokA", "refB"⟩ rfl
  exact ⟨h.1.2.1, h.2.2.2.1⟩

/-- The dashboard summary record (Dashboard.tsx lines 23-37).  Fractional
fields are modelled as rationals. -/
structure FinancialSummary where
  total_revenue : Rat
  total_expenses : Rat
  net_profit : Rat
  profit_margin : Rat
  operating_cash_flow : Rat
  current_ratio : Option Rat
  debt_to_equity : Option Rat
  revenue_change : Option Rat
  expense_change : Option Rat
  profit_change : Option Rat
  health_score : Rat
  health_status : String
  period_label : String
deriving DecidableEq, Repr

/-- One point of the dashboard cash-flow chart. -/
structure CashFlowPoint where
  period : String
  net : Rat
deriving DecidableEq, Repr

/-- The `/api/financial/cash-flow` response body: `data.historical` may be
absent. -/
structure CashFlowResponse where
  historical : Option (List CashFlowPoint)
deriving DecidableEq, Repr

/-- The hard-coded dashboard placeholder summary (Dashboard.tsx lines 59-73). -/
def mockSummary : FinancialSummary :=
  { total_revenue := 1250000, total_expenses := 980000, net_profit := 270000,
    profit_margin := 21.6, operating_cash_flow := 185000,
    current_ratio := some 1.85, debt_to_equity := some 0.65,
    revenue_change := some 15.3, expense_change := some 8.2,
    profit_change := some 28.5, health_score := 78,
    health_status := "healthy", period_label := "Jan 2026" }

/-- The hard-coded dashboard placeholder cash-flow series
(Dashboard.tsx lines 74-81). -/
def mockCashFlow : List CashFlowPoint :=
  [⟨"Aug", 120000⟩, ⟨"Sep", 145000⟩, ⟨"Oct", 132000⟩,
   ⟨"Nov", 168000⟩, ⟨"Dec", 155000⟩, ⟨"Jan", 185000⟩]

/-- The Dashboard page's local view state after `loadDashboardData`
completes. -/
structure DashboardPageState where
  loading : Bool
  summary : Option FinancialSummary
  cashFlowData : List CashFlowPoint
deriving DecidableEq, Repr

/-- `loadDashboardData` (Dashboard.tsx lines 49-85), with the joint outcome
of the two awaited requests as an oracle (a rejection of either rejects the
`Promise.all`): success stores the responses (`historical || []`); failure
substitutes the placeholder dataset; `loading` ends `false` either way. -/
def loadDashboardData
    (resp : Except ApiError (FinancialSummary × CashFlowResponse)) :
    DashboardPageState :=
  match resp with
  | .ok (s, cf) => ⟨false, some s, cf.historical.getD []⟩
  | .error _ => ⟨false, some mockSummary, mockCashFlow⟩

/-- One identified risk factor (RiskAssessment.tsx mock shape). -/
structure RiskFactor where
  name : String
  severity : String
  description : String
deriving DecidableEq, Repr

/-- One recommendation (RiskAssessment.tsx mock shape). -/
structure Recommendation where
  title : String
  priority : String
  description : String
deriving DecidableEq, Repr

/-- The `/api/analysis/risk` response body as the page consumes it. -/
structure RiskData where
  overall_score : Rat
  liquidity_score : Rat
  solvency_score : Rat
  operational_score : Rat
  creditworthiness_score : Rat
  risk_level : String
  risk_factors : List RiskFactor
  recommendations : List Recommendation
deriving DecidableEq, Repr

/-- The hard-coded risk placeholder dataset (RiskAssessment.tsx lines 37-53). -/
def mockRiskData : RiskData :=
  { overall_score := 45, liquidity_score := 38, solvency_score := 52,
    operational_score := 41, creditworthiness_score := 72,
    risk_level := "medium",
    risk_factors :=
      [⟨"Low Current Ratio", "high", "Current assets below short-term obligations"⟩,
       ⟨"High Receivables", "medium", "Days receivable above industry average"⟩,
       ⟨"Seasonal Revenue", "low", "Revenue concentration in specific quarters"⟩],
    recommendations :=
      [⟨"Improve Collection", "high", "Reduce accounts receivable days"⟩,
       ⟨"Build Cash Reserve", "medium", "Maintain 3-month operating expenses"⟩] }

/-- The RiskAssessment page's local view state after `loadRiskData`
completes. -/
structure RiskPageState where
  loading : Bool
  riskData : Option RiskData
deriving DecidableEq, Repr

/-- `loadRiskData` (RiskAssessment.tsx lines 31-57): success stores the
response; failure substitutes the placeholder dataset; `loading` ends
`false` either way. -/
def loadRiskData (resp : Except ApiError RiskData) : RiskPageState :=
  match resp with
  | .ok d => ⟨false, some d⟩
  | .error _ => ⟨false, some mockRiskData⟩

/-- One generated report entry (Reports.tsx mock shape). -/
structure Report where
  id : Nat
  title : String
  report_type : String
  generated_at : String
  status : String
deriving DecidableEq, Repr

/-- The `/api/reports` response body: `data.items` may be absent. -/
structure ReportsResponse where
  items : Option (List Report)
deriving DecidableEq, Repr

/-- The hard-coded reports placeholder list (Reports.tsx lines 51-56). -/
def mockReports : List Report :=
  [⟨1, "Financial Health Report - Jan 2026", "financial_health", "2026-01-15", "completed"⟩,
   ⟨2, "Risk Assessment Report", "risk_assessment", "2026-01-10", "completed"⟩,
   ⟨3, "Investor Ready Report", "investor_ready", "2026-01-05", "completed"⟩]

/-- The Reports page's local view state after `loadReports` completes. -/
structure ReportsPageState where
  loading : Bool
  reports : List Report
deriving DecidableEq, Repr

/-- `loadReports` (Reports.tsx lines 47-61): success stores
`data.items || []`; failure substitutes the placeholder list; `loading`
ends `false` either way. -/
def loadReports (resp : Except ApiError ReportsResponse) : ReportsPageState :=
  match resp with
  | .ok r => ⟨false, r.items.getD []⟩
  | .error _ => ⟨false, mockReports⟩

/-- C7: on any data-fetch failure, each authenticated page substitutes its
hard-coded placeholder dataset into its local view state: loading has
completed and the page's data equals the non-empty placeholder, so the page
renders as populated rather than empty. -/
theorem fetch_failure_placeholder_data (e1 e2 e3 : ApiError) :
    ((loadDashboardData (Except.error e1)).loading = false ∧
      (loadDashboardData (Except.error e1)).summary = some mockSummary ∧
      (loadDashboardData (Except.error e1)).cashFlowData = mockCashFlow ∧
      (loadDashboardData (Except.error e1)).cashFlowData ≠ []) ∧
    ((loadRiskData (Except.error e2)).loading = false ∧
      (loadRiskData (Except.error e2)).riskData = some mockRiskData ∧
      ((loadRiskData (Except.error e2)).riskData.map RiskData.risk_factors
        ≠ some [])) ∧
    ((loadReports (Except.error e3)).loading = false ∧
      (loadReports (Except.error e3)).reports = mockReports ∧
      (loadReports (Except.error e3)).reports ≠ []) := by
  refine ⟨⟨rfl, rfl, rfl, ?_⟩, ⟨rfl, rfl, ?_⟩, ⟨rfl, rfl, ?_⟩⟩ <;>
    simp [loadDashboardData, loadRiskData, loadReports,
      mockCashFlow, mockRiskData, mockReports]
